import Mathlib

/-
Verification of the alpha-model contract from qstrader
(src/qstrader/algo/alpha_model.py).

The Python module defines:
  * class AlphaModelException(Exception): pass
  * class AlphaModel(ABC) with
      - __init__(self, model_id, sources_dict): stores id, validates and
        stores sources_dict via _check_source_list, sets _name = None
      - property name (getter raising ValueError when unset, setter
        accepting only str and raising ValueError otherwise)
      - _check_source_list(sources): TypeError when not a dict, ValueError
        naming the first key absent from existing_sources, else returns
        the dict unchanged
      - abstract update(dt) / forecast() whose bodies raise
        NotImplementedError

The module-level registry existing_sources (imported from nutrader.util)
is treated as an explicit parameter: a list of known source names.
Python values are embedded as the inductive PyValue, Python exceptions as
a class tag plus message.
-/

namespace QStrader

/-- Embedding of the Python values the contract manipulates: the source
configuration may be any value (only dicts validate), parameters and ids
are arbitrary. Dict entries keep insertion order, as Python dicts do. -/
inductive PyValue where
| none
| bool (b : Bool)
| int (n : Int)
| str (s : String)
| list (xs : List PyValue)
| dict (entries : List (String × PyValue))
deriving Repr

/-- Whether a value is a Python str (isinstance(value, str)). -/
def PyValue.isStr : PyValue → Bool
| .str _ => true
| _ => false

/-- Whether a value is a Python dict (isinstance(value, dict)). -/
def PyValue.isDict : PyValue → Bool
| .dict _ => true
| _ => false

/-- Name of the Python type of a value, as rendered by type(value). -/
def PyValue.typeName : PyValue → String
| .none => "NoneType"
| .bool _ => "bool"
| .int _ => "int"
| .str _ => "str"
| .list _ => "list"
| .dict _ => "dict"

/-- The Python exception classes appearing in the module: the builtins it
raises, and the AlphaModelException class it defines. -/
inductive ExcClass where
| baseException
| exception
| typeError
| valueError
| runtimeError
| notImplementedError
| alphaModelException
deriving Repr, DecidableEq

/-- The ancestor chain (the class itself first) of each exception class,
following Python's builtin hierarchy; AlphaModelException is declared in
the module as a direct subclass of Exception. -/
def ExcClass.ancestors : ExcClass → List ExcClass
| .baseException => [.baseException]
| .exception => [.exception, .baseException]
| .typeError => [.typeError, .exception, .baseException]
| .valueError => [.valueError, .exception, .baseException]
| .runtimeError => [.runtimeError, .exception, .baseException]
| .notImplementedError => [.notImplementedError, .runtimeError, .exception, .baseException]
| .alphaModelException => [.alphaModelException, .exception, .baseException]

/-- c is d or inherits from d. -/
def ExcClass.isSubclass (c d : ExcClass) : Bool :=
  (ExcClass.ancestors c).contains d

/-- A raised Python exception: its class and its message. -/
structure PyError where
  cls : ExcClass
  msg : String
deriving Repr, DecidableEq

/-- An except-clause for class handler catches exception e exactly when
the class of e is handler or a subclass of it. -/
def catches (handler : ExcClass) (e : PyError) : Bool :=
  ExcClass.isSubclass e.cls handler

/-- The error the spec calls TypeConfigurationError: the TypeError raised
by _check_source_list when the input is not a dict. -/
def typeConfigurationError : PyError :=
  ⟨.typeError, "Alpha Model needs to be given a dictionary of sources and their parameters"⟩

/-- The error the spec calls UnknownSourceError: the ValueError raised by
_check_source_list naming an unregistered source key. -/
def unknownSourceError (source : String) : PyError :=
  ⟨.valueError, "Source " ++ source ++ " does not exist!"⟩

/-- The error the spec calls NameNotSetError: the ValueError raised by the
name getter when _name is None. -/
def nameNotSetError : PyError :=
  ⟨.valueError, "Name has not been set."⟩

/-- The error the spec calls InvalidNameTypeError: the ValueError raised
by the name setter, naming the type of the rejected value. -/
def invalidNameTypeError (value : PyValue) : PyError :=
  ⟨.valueError, "Name has to be a string and not <class " ++ PyValue.typeName value ++ ">"⟩

/-- The state of a constructed AlphaModel instance: id and sources_dict as
stored by __init__, and the _name slot (None or a str). -/
structure AlphaModel where
  id : PyValue
  sources_dict : PyValue
  _name : Option String
deriving Repr

/-- AlphaModel._check_source_list: TypeError when sources is not a dict;
otherwise iterate over the items in order and raise ValueError at the
first key not contained in existing_sources; on success return the dict
unchanged. -/
def checkSourceList (existing_sources : List String) (sources : PyValue) :
    Except PyError PyValue :=
  match sources with
  | .dict entries =>
    match entries.find? (fun kv => ! existing_sources.contains kv.1) with
    | some kv => .error (unknownSourceError kv.1)
    | Option.none => .ok (.dict entries)
  | _ => .error typeConfigurationError

/-- AlphaModel.__init__: stores the id, stores the result of
_check_source_list(sources_dict), initialises _name to None; a raised
validation error aborts construction. -/
def initAlphaModel (existing_sources : List String)
    (model_id sources_dict : PyValue) : Except PyError AlphaModel :=
  match checkSourceList existing_sources sources_dict with
  | .ok sd => .ok { id := model_id, sources_dict := sd, _name := Option.none }
  | .error e => .error e

/-- The name getter: returns _name when it is not None, else raises. -/
def nameGet (m : AlphaModel) : Except PyError String :=
  match m._name with
  | some s => .ok s
  | Option.none => .error nameNotSetError

/-- The name setter: stores the value when it is a str, else raises and
leaves the instance unchanged (the assignment is never reached). Returns
the outcome together with the post-state of the instance. -/
def nameSet (m : AlphaModel) (value : PyValue) :
    Except PyError Unit × AlphaModel :=
  match value with
  | .str s => (.ok (), { m with _name := some s })
  | v => (.error (invalidNameTypeError v), m)

/-- Body of the abstract method AlphaModel.update. -/
def AlphaModel.update (_m : AlphaModel) (_dt : PyValue) : Except PyError Unit :=
  .error ⟨.notImplementedError, "Should implement update()"⟩

/-- Body of the abstract method AlphaModel.forecast. -/
def AlphaModel.forecast (_m : AlphaModel) : Except PyError (List PyValue) :=
  .error ⟨.notImplementedError, "Should implement forecast()"⟩

/-- The contract operations available on a constructed model that touch
the name slot: reading name, or assigning a value to it. -/
inductive NameOp where
| get
| set (value : PyValue)
deriving Repr

/-- Post-state of one contract operation: the getter never mutates, the
setter yields the post-state of nameSet (unchanged on failure). -/
def runNameOp (m : AlphaModel) (op : NameOp) : AlphaModel :=
  match op with
  | .get => m
  | .set v => (nameSet m v).2

/-- Post-state after a sequence of contract operations. -/
def runNameOps (m : AlphaModel) (ops : List NameOp) : AlphaModel :=
  ops.foldl runNameOp m

/-- The outcome of source validation on a dict: none on success, the
raised error otherwise. -/
def checkOutcome (existing_sources : List String)
    (entries : List (String × PyValue)) : Option PyError :=
  match checkSourceList existing_sources (.dict entries) with
  | .ok _ => Option.none
  | .error e => some e

/-- Modelled from the spec: Python's abstract-base-class instantiation
check (the abc module is outside this repository). A concrete subclass of
AlphaModel either overrides update and forecast or leaves them abstract;
this record carries its optional overrides. -/
structure ConcreteAlphaModel where
  updateImpl : Option (AlphaModel → PyValue → AlphaModel)
  forecastImpl : Option (AlphaModel → List PyValue)

/-- Modelled from the spec: instantiating a subclass fails structurally
with a TypeError while any abstract method remains unimplemented;
otherwise construction proceeds through AlphaModel.__init__. -/
def instantiateSubclass (c : ConcreteAlphaModel)
    (existing_sources : List String) (model_id sources_dict : PyValue) :
    Except PyError AlphaModel :=
  if c.updateImpl.isSome && c.forecastImpl.isSome then
    initAlphaModel existing_sources model_id sources_dict
  else
    .error ⟨.typeError, "Cannot instantiate abstract class AlphaModel with abstract methods"⟩

theorem checkSourceList_ok_of_keys (existing_sources : List String)
    (entries : List (String × PyValue))
    (h : ∀ k ∈ entries.map Prod.fst, k ∈ existing_sources) :
    checkSourceList existing_sources (.dict entries) = .ok (.dict entries) := by
  have hfind : entries.find? (fun kv => ! existing_sources.contains kv.1) = Option.none := by
    rw [List.find?_eq_none]
    intro kv hkv
    have hmem : kv.1 ∈ existing_sources := h kv.1 (List.mem_map_of_mem Prod.fst hkv)
    simp [hmem]
  simp only [checkSourceList]
  rw [hfind]

/-- C1: for every mapping all of whose keys are members of the source
registry, construction of AlphaModel(id, m) succeeds and the constructed
model's sources_dict is exactly the input mapping, unchanged. -/
theorem c1_valid_sources_construct_ok (existing_sources : List String)
    (model_id : PyValue) (entries : List (String × PyValue))
    (h : ∀ k ∈ entries.map Prod.fst, k ∈ existing_sources) :
    initAlphaModel existing_sources model_id (.dict entries) =
      .ok { id := model_id, sources_dict := .dict entries, _name := Option.none } := by
  simp [initAlphaModel, checkSourceList_ok_of_keys existing_sources entries h]

/-- Witness for C1 at the concrete configuration of the end-to-end
scenario: one registered source with parameters. -/
theorem c1_witness :
    initAlphaModel ["momentum_factor"] (.int 1)
      (.dict [("momentum_factor", .dict [("window", .int 20)])]) =
      .ok { id := .int 1,
            sources_dict := .dict [("momentum_factor", .dict [("window", .int 20)])],
            _name := Option.none } :=
  c1_valid_sources_construct_ok ["momentum_factor"] (.int 1)
    [("momentum_factor", .dict [("window", .int 20)])] (by decide)

/-- C2: for every mapping containing at least one key not in the source
registry, construction fails with the unknown-source ValueError naming
one such offending key. -/
theorem c2_unknown_source_raises (existing_sources : List String)
    (model_id : PyValue) (entries : List (String × PyValue))
    (h : ∃ k ∈ entries.map Prod.fst, k ∉ existing_sources) :
    ∃ k ∈ entries.map Prod.fst, k ∉ existing_sources ∧
      initAlphaModel existing_sources model_id (.dict entries) =
        .error (unknownSourceError k) := by
  obtain ⟨k, hk, hnk⟩ := h
  obtain ⟨kv, hkv, hfst⟩ := List.mem_map.mp hk
  have hsome : (entries.find? (fun kv => ! existing_sources.contains kv.1)).isSome := by
    rw [List.find?_isSome]
    refine ⟨kv, hkv, ?_⟩
    simp [hfst, hnk]
  obtain ⟨kv0, hkv0⟩ := Option.isSome_iff_exists.mp hsome
  have hp := List.find?_some hkv0
  have hmem : kv0 ∈ entries := List.mem_of_find?_eq_some hkv0
  refine ⟨kv0.1, List.mem_map_of_mem Prod.fst hmem, ?_, ?_⟩
  · simpa using hp
  · simp only [initAlphaModel, checkSourceList]
    rw [hkv0]

/-- Witness for C2: a single unregistered source key. -/
theorem c2_witness :
    ∃ k ∈ ([("bogus_source", PyValue.none)] : List (String × PyValue)).map Prod.fst,
      k ∉ (["momentum_factor"] : List String) ∧
      initAlphaModel ["momentum_factor"] (.int 1)
        (.dict [("bogus_source", PyValue.none)]) =
        .error (unknownSourceError k) :=
  c2_unknown_source_raises ["momentum_factor"] (.int 1)
    [("bogus_source", PyValue.none)] (by decide)

/-- C3: for every input that is not a mapping, construction fails with the
TypeError of the spec's TypeConfigurationError, and the outcome does not
depend on the registry at all (no key is ever checked against it). -/
theorem c3_non_mapping_type_error (existing_sources : List String)
    (model_id v : PyValue) (h : v.isDict = false) :
    initAlphaModel existing_sources model_id v = .error typeConfigurationError := by
  cases v <;> simp_all [PyValue.isDict, initAlphaModel, checkSourceList]

/-- Witness for C3: a list input (a sequence, not a mapping). -/
theorem c3_witness :
    initAlphaModel ["momentum_factor"] (.int 1) (.list []) =
      .error typeConfigurationError :=
  c3_non_mapping_type_error ["momentum_factor"] (.int 1) (.list []) rfl

/-- C4 counterexample: at the concrete violating call
AlphaModel(1, 0) the raised error is the builtin TypeError, which is not
a subclass of the module's AlphaModelException, so a handler for that
base signal does not catch it. -/
theorem c4_counterexample :
    initAlphaModel [] (.int 1) (.int 0) = .error typeConfigurationError ∧
    catches .alphaModelException typeConfigurationError = false ∧
    ExcClass.isSubclass .typeError .alphaModelException = false :=
  ⟨rfl, rfl, rfl⟩

/-- C4 (amended): every error in the taxonomy is raised as a builtin
TypeError or ValueError; each is a subclass of the generic Exception, so
a handler for Exception catches all of them uniformly, but none is a
subclass of the module's AlphaModelException (defined yet never raised),
so a handler for that class catches none of them. -/
theorem c4_amended_taxonomy_under_exception (source : String) (value : PyValue) :
    (catches .exception typeConfigurationError = true ∧
      catches .alphaModelException typeConfigurationError = false) ∧
    (catches .exception (unknownSourceError source) = true ∧
      catches .alphaModelException (unknownSourceError source) = false) ∧
    (catches .exception nameNotSetError = true ∧
      catches .alphaModelException nameNotSetError = false) ∧
    (catches .exception (invalidNameTypeError value) = true ∧
      catches .alphaModelException (invalidNameTypeError value) = false) ∧
    ExcClass.isSubclass .alphaModelException .exception = true :=
  ⟨⟨rfl, rfl⟩, ⟨rfl, rfl⟩, ⟨rfl, rfl⟩, ⟨rfl, rfl⟩, rfl⟩

/-- C5: on every model produced by successful construction, on which name
was never assigned, reading the name property raises the ValueError of
the spec's NameNotSetError. -/
theorem c5_fresh_name_unset (existing_sources : List String)
    (model_id sources_dict : PyValue) (m : AlphaModel)
    (h : initAlphaModel existing_sources model_id sources_dict = .ok m) :
    nameGet m = .error nameNotSetError := by
  cases hc : checkSourceList existing_sources sources_dict with
  | ok sd =>
    simp only [initAlphaModel, hc] at h
    cases h
    rfl
  | error e =>
    simp only [initAlphaModel, hc] at h
    cases h

/-- Witness for C5: a freshly constructed model with an empty source
configuration. -/
theorem c5_witness :
    nameGet { id := .int 1, sources_dict := .dict [], _name := Option.none } =
      .error nameNotSetError :=
  c5_fresh_name_unset [] (.int 1) (.dict []) _ rfl

/-- C6: for every text value v and every model state, assigning v to name
succeeds and then reading name returns exactly v. -/
theorem c6_set_then_get_roundtrip (m : AlphaModel) (v : String) :
    (nameSet m (.str v)).1 = .ok () ∧
    nameGet (nameSet m (.str v)).2 = .ok v :=
  ⟨rfl, rfl⟩

/-- C7: for every non-text value and every model state, assigning it to
name raises the ValueError of the spec's InvalidNameTypeError, whose
message names the rejected type, and the instance is left unchanged. -/
theorem c7_non_str_name_rejected (m : AlphaModel) (value : PyValue)
    (h : value.isStr = false) :
    nameSet m value = (.error (invalidNameTypeError value), m) := by
  cases value <;> simp_all [PyValue.isStr, nameSet]

/-- Witness for C7: assigning the integer 42 to name on a model whose
name was previously set leaves the stored name intact. -/
theorem c7_witness :
    nameSet { id := .int 1, sources_dict := .dict [], _name := some "MomentumV1" }
        (.int 42) =
      (.error (invalidNameTypeError (.int 42)),
        { id := .int 1, sources_dict := .dict [], _name := some "MomentumV1" }) :=
  c7_non_str_name_rejected
    { id := .int 1, sources_dict := .dict [], _name := some "MomentumV1" }
    (.int 42) rfl

theorem runNameOp_preserves (m : AlphaModel) (op : NameOp) :
    (runNameOp m op).id = m.id ∧ (runNameOp m op).sources_dict = m.sources_dict := by
  cases op with
  | get => exact ⟨rfl, rfl⟩
  | set v => cases v <;> exact ⟨rfl, rfl⟩

theorem runNameOps_preserves (ops : List NameOp) :
    ∀ m : AlphaModel,
      (runNameOps m ops).id = m.id ∧
      (runNameOps m ops).sources_dict = m.sources_dict := by
  induction ops with
  | nil => intro m; exact ⟨rfl, rfl⟩
  | cons op rest ih =>
    intro m
    have hstep : runNameOps m (op :: rest) = runNameOps (runNameOp m op) rest := rfl
    rw [hstep]
    exact ⟨(ih (runNameOp m op)).1.trans (runNameOp_preserves m op).1,
      (ih (runNameOp m op)).2.trans (runNameOp_preserves m op).2⟩

/-- C8: after successful construction, no sequence of name operations
(reads, successful or failing writes) ever changes the id or the stored
source configuration: both keep their construction-time values. -/
theorem c8_frame_id_sources (existing_sources : List String)
    (model_id sources_dict : PyValue) (m : AlphaModel)
    (h : initAlphaModel existing_sources model_id sources_dict = .ok m)
    (ops : List NameOp) :
    (runNameOps m ops).id = model_id ∧
    (runNameOps m ops).sources_dict = m.sources_dict := by
  refine ⟨(runNameOps_preserves ops m).1.trans ?_, (runNameOps_preserves ops m).2⟩
  cases hc : checkSourceList existing_sources sources_dict with
  | ok sd =>
    simp only [initAlphaModel, hc] at h
    cases h
    rfl
  | error e =>
    simp only [initAlphaModel, hc] at h
    cases h

/-- Witness for C8: a read, a valid write, a failing write and another
read leave id and sources_dict at their construction-time values. -/
theorem c8_witness :
    (runNameOps
        { id := .int 7, sources_dict := .dict [("momentum_factor", PyValue.none)],
          _name := Option.none }
        [NameOp.get, NameOp.set (.str "MomentumV1"), NameOp.set (.int 3),
          NameOp.get]).id = .int 7 ∧
    (runNameOps
        { id := .int 7, sources_dict := .dict [("momentum_factor", PyValue.none)],
          _name := Option.none }
        [NameOp.get, NameOp.set (.str "MomentumV1"), NameOp.set (.int 3),
          NameOp.get]).sources_dict =
      .dict [("momentum_factor", PyValue.none)] :=
  c8_frame_id_sources ["momentum_factor"] (.int 7)
    (.dict [("momentum_factor", PyValue.none)]) _ rfl
    [NameOp.get, NameOp.set (.str "MomentumV1"), NameOp.set (.int 3), NameOp.get]

/-- C9: a concrete subclass missing an implementation of update or of
forecast cannot be instantiated (a structural TypeError), and the base
bodies of update and forecast, if reached, raise NotImplementedError. -/
theorem c9_abstract_enforcement (c : ConcreteAlphaModel)
    (existing_sources : List String) (model_id sources_dict : PyValue)
    (m : AlphaModel) (dt : PyValue)
    (h : c.updateImpl.isNone = true ∨ c.forecastImpl.isNone = true) :
    (instantiateSubclass c existing_sources model_id sources_dict).isOk = false ∧
    instantiateSubclass c existing_sources model_id sources_dict =
      .error ⟨.typeError, "Cannot instantiate abstract class AlphaModel with abstract methods"⟩ ∧
    AlphaModel.update m dt =
      .error ⟨.notImplementedError, "Should implement update()"⟩ ∧
    AlphaModel.forecast m =
      .error ⟨.notImplementedError, "Should implement forecast()"⟩ := by
  have hb : (c.updateImpl.isSome && c.forecastImpl.isSome) = false := by
    rcases h with h | h
    · simp [Option.isNone_iff_eq_none.mp h]
    · simp [Option.isNone_iff_eq_none.mp h]
  refine ⟨?_, ?_, rfl, rfl⟩ <;>
    simp [instantiateSubclass, hb, Except.isOk, Except.toBool]

/-- Witness for C9: a subclass overriding neither abstract method. -/
theorem c9_witness :
    (instantiateSubclass ⟨Option.none, Option.none⟩ ["momentum_factor"] (.int 1)
        (.dict [])).isOk = false ∧
    instantiateSubclass ⟨Option.none, Option.none⟩ ["momentum_factor"] (.int 1)
        (.dict []) =
      .error ⟨.typeError, "Cannot instantiate abstract class AlphaModel with abstract methods"⟩ ∧
    AlphaModel.update { id := .int 1, sources_dict := .dict [], _name := Option.none }
        (.int 0) =
      .error ⟨.notImplementedError, "Should implement update()"⟩ ∧
    AlphaModel.forecast { id := .int 1, sources_dict := .dict [], _name := Option.none } =
      .error ⟨.notImplementedError, "Should implement forecast()"⟩ :=
  c9_abstract_enforcement ⟨Option.none, Option.none⟩ ["momentum_factor"] (.int 1)
    (.dict []) { id := .int 1, sources_dict := .dict [], _name := Option.none }
    (.int 0) (Or.inl rfl)

theorem checkOutcome_eq (existing_sources : List String)
    (entries : List (String × PyValue)) :
    checkOutcome existing_sources entries =
      ((entries.map Prod.fst).find? (fun k => ! existing_sources.contains k)).map
        unknownSourceError := by
  rw [List.find?_map]
  cases h : entries.find? (fun kv => ! existing_sources.contains kv.1) with
  | none =>
    simp only [checkOutcome, checkSourceList, h, Function.comp]
    rw [show (List.find? ((fun k => !existing_sources.contains k) ∘ Prod.fst) entries) =
      entries.find? (fun kv => ! existing_sources.contains kv.1) from rfl, h]
    rfl
  | some kv =>
    simp only [checkOutcome, checkSourceList, h, Function.comp]
    rw [show (List.find? ((fun k => !existing_sources.contains k) ∘ Prod.fst) entries) =
      entries.find? (fun kv => ! existing_sources.contains kv.1) from rfl, h]
    rfl

/-- C10: source validation looks only at the keys of the mapping: the
empty mapping always validates, any mapping whose keys are all registered
validates whatever its values are, and two mappings with the same key
sequence produce the same validation outcome. -/
theorem c10_validation_depends_only_on_keys (existing_sources : List String)
    (entries entries2 : List (String × PyValue)) :
    checkSourceList existing_sources (.dict []) = .ok (.dict []) ∧
    ((∀ k ∈ entries.map Prod.fst, k ∈ existing_sources) →
      checkSourceList existing_sources (.dict entries) = .ok (.dict entries)) ∧
    (entries.map Prod.fst = entries2.map Prod.fst →
      checkOutcome existing_sources entries = checkOutcome existing_sources entries2) := by
  refine ⟨rfl, fun h => checkSourceList_ok_of_keys existing_sources entries h, fun hkeys => ?_⟩
  rw [checkOutcome_eq, checkOutcome_eq, hkeys]

/-- Witness for C10: same single registered key with two different
parameter values gives the same outcome; the empty mapping validates. -/
theorem c10_witness :
    checkSourceList ["momentum_factor"] (.dict []) = .ok (.dict []) ∧
    checkSourceList ["momentum_factor"]
        (.dict [("momentum_factor", PyValue.none)]) =
      .ok (.dict [("momentum_factor", PyValue.none)]) ∧
    checkOutcome ["momentum_factor"] [("momentum_factor", PyValue.none)] =
      checkOutcome ["momentum_factor"] [("momentum_factor", .int 5)] :=
  ⟨(c10_validation_depends_only_on_keys ["momentum_factor"]
      [("momentum_factor", PyValue.none)] [("momentum_factor", .int 5)]).1,
    (c10_validation_depends_only_on_keys ["momentum_factor"]
      [("momentum_factor", PyValue.none)] [("momentum_factor", .int 5)]).2.1
      (by decide),
    (c10_validation_depends_only_on_keys ["momentum_factor"]
      [("momentum_factor", PyValue.none)] [("momentum_factor", .int 5)]).2.2
      (by decide)⟩

end QStrader
